import Mathlib

/-!
Shallow embedding of `kernel/livepatch/shadow.c`: livepatch shadow
variables with registered shadow variable types.

Modelling conventions:

* Owner addresses (`void *obj`) and the `data` pointers of shadow entries
  are modelled as natural numbers.  Each `kzalloc`ed `struct klp_shadow`
  receives a fresh token (`nextRef`), standing for the address of its
  `data` area; tokens give pointer identity for "same data reference"
  statements.
* The hashtable `klp_shadow_hash` is modelled as a single list of entries,
  newest first: `hash_add_rcu` prepends a node into its bucket and
  `hash_for_each_possible` scans that bucket front to back; entries placed
  in other buckets can never satisfy `klp_shadow_match` for the scanned
  key, so the flat-list model is observationally equivalent to the
  bucketed table for every operation in the file.
* `kzalloc` success is an explicit boolean input (`alloc_ok`): allocation
  failure returns NULL in the C code.
* Constructor and destructor invocations, and the diagnostics the claims
  mention (the `WARN` on a duplicate in `__klp_shadow_get_or_alloc` and
  the `pr_err` on constructor failure in `__klp_shadow_get_or_use`), are
  returned as per-call event lists.  The `pr_err` calls of
  `klp_shadow_get`, `klp_shadow_register` and `klp_shadow_unregister` only
  log; they are modelled by the corresponding return value / no-op.
* The spinlock / RCU machinery orders concurrent executions; the embedding
  is sequential, so each operation is a single atomic state transition.
-/

/-- One `struct klp_shadow` hashtable entry: parent object address `obj`,
data identifier `id`, and the token `ref` standing for its `data` pointer. -/
structure Shadow where
  obj : Nat
  id : Nat
  ref : Nat
deriving DecidableEq, Repr

/-- Caller-owned `struct klp_shadow_type`: the id, the `registered` flag, the
optional constructor (modelled by the error code it returns, as a function of
`obj` and `ctor_data`; `0` means success), and whether a destructor is set. -/
structure ShadowType where
  id : Nat
  registered : Bool
  ctor : Option (Nat → Nat → Int)
  hasDtor : Bool

/-- `struct klp_shadow_type_reg`: bookkeeping record on the
`klp_shadow_types` list. -/
structure TypeReg where
  id : Nat
  ref_cnt : Int
deriving DecidableEq, Repr

/-- The global mutable state of `shadow.c`: the `klp_shadow_hash` table
(newest entry first), the `klp_shadow_types` list, and the fresh-address
counter used to model `kzalloc`. -/
structure KlpState where
  hash : List Shadow
  types : List TypeReg
  nextRef : Nat
deriving DecidableEq, Repr

/-- The initial state: empty hashtable, no registered types. -/
def initState : KlpState := { hash := [], types := [], nextRef := 0 }

/-- Diagnostics the claims are about: the duplicate `WARN` of
`__klp_shadow_get_or_alloc` and the constructor-failure `pr_err` of
`__klp_shadow_get_or_use`. -/
inductive Diag where
  | duplicate (obj id : Nat)
  | ctorFailedDiag (obj id : Nat)
deriving DecidableEq, Repr

/-- `klp_shadow_match`: a shadow variable matches the wanted `<obj, id>`. -/
def klp_shadow_match (shadow : Shadow) (obj : Nat) (shadow_type : ShadowType) : Bool :=
  shadow.obj == obj && shadow.id == shadow_type.id

/-- `klp_shadow_get`: if the type is not registered, log and return NULL;
otherwise scan the bucket for the first entry matching `<obj, id>` and
return its data pointer, NULL when none matches. -/
def klp_shadow_get (s : KlpState) (obj : Nat) (shadow_type : ShadowType) : Option Nat :=
  if !shadow_type.registered then
    none
  else
    (s.hash.find? (fun shadow => klp_shadow_match shadow obj shadow_type)).map Shadow.ref

/-- Result of `__klp_shadow_get_or_use`: the returned data pointer, the
`*exist` out-parameter, the state after the call, plus instrumentation (the
`(obj, id)` of each constructor invocation and emitted diagnostics). -/
structure UseResult where
  data : Option Nat
  exist : Bool
  state : KlpState
  ctorRuns : List (Nat × Nat)
  diags : List Diag
deriving Repr

/-- `__klp_shadow_get_or_use`: under the lock, re-check via
`klp_shadow_get`; if found, report `*exist = true` and return the existing
data.  Otherwise fill in the new shadow's `obj` and `id`, run the
constructor if the type has one (constructor failure logs and returns NULL
without inserting), and on success attach the new entry with
`hash_add_rcu` (prepend). -/
def klp_shadow_get_or_use (s : KlpState) (obj : Nat) (shadow_type : ShadowType)
    (newRef : Nat) (ctor_data : Nat) : UseResult :=
  match klp_shadow_get s obj shadow_type with
  | some shadow_data =>
      { data := some shadow_data, exist := true, state := s, ctorRuns := [], diags := [] }
  | none =>
      match shadow_type.ctor with
      | some ctor =>
          if ctor obj ctor_data != 0 then
            { data := none, exist := false, state := s,
              ctorRuns := [(obj, shadow_type.id)],
              diags := [Diag.ctorFailedDiag obj shadow_type.id] }
          else
            { data := some newRef, exist := false,
              state := { s with
                hash := { obj := obj, id := shadow_type.id, ref := newRef } :: s.hash },
              ctorRuns := [(obj, shadow_type.id)], diags := [] }
      | none =>
          { data := some newRef, exist := false,
            state := { s with
              hash := { obj := obj, id := shadow_type.id, ref := newRef } :: s.hash },
            ctorRuns := [], diags := [] }

/-- Result of the allocation entry points: returned data pointer, state
after the call, and instrumentation. -/
structure AllocResult where
  data : Option Nat
  state : KlpState
  ctorRuns : List (Nat × Nat)
  diags : List Diag
deriving Repr

/-- `__klp_shadow_get_or_alloc`: first check existence with
`klp_shadow_get` and return the existing data immediately on a hit; then
speculatively `kzalloc` a new shadow (failure returns NULL); then re-check
and possibly attach under the lock via `__klp_shadow_get_or_use`
(the unused speculative allocation is thrown away when the variable exists
or the constructor failed); finally `WARN` and return NULL when the
under-lock re-check found an existing entry and `warn_on_exist` is set. -/
def klp_shadow_get_or_alloc_impl (s : KlpState) (obj : Nat) (shadow_type : ShadowType)
    (size : Nat) (ctor_data : Nat) (alloc_ok : Bool) (warn_on_exist : Bool) : AllocResult :=
  match klp_shadow_get s obj shadow_type with
  | some shadow_data =>
      { data := some shadow_data, state := s, ctorRuns := [], diags := [] }
  | none =>
      if !alloc_ok then
        { data := none, state := s, ctorRuns := [], diags := [] }
      else
        let newRef := s.nextRef
        let s1 : KlpState := { s with nextRef := s.nextRef + 1 }
        let r := klp_shadow_get_or_use s1 obj shadow_type newRef ctor_data
        if r.exist && warn_on_exist then
          { data := none, state := r.state, ctorRuns := r.ctorRuns,
            diags := r.diags ++ [Diag.duplicate obj shadow_type.id] }
        else
          { data := r.data, state := r.state, ctorRuns := r.ctorRuns, diags := r.diags }

/-- `klp_shadow_alloc`: the strict entry point, `warn_on_exist = true`.
The unused `size` argument mirrors the C signature. -/
def klp_shadow_alloc (s : KlpState) (obj : Nat) (shadow_type : ShadowType)
    (size : Nat) (ctor_data : Nat) (alloc_ok : Bool) : AllocResult :=
  klp_shadow_get_or_alloc_impl s obj shadow_type size ctor_data alloc_ok true

/-- `klp_shadow_get_or_alloc`: the silent entry point, `warn_on_exist = false`. -/
def klp_shadow_get_or_alloc (s : KlpState) (obj : Nat) (shadow_type : ShadowType)
    (size : Nat) (ctor_data : Nat) (alloc_ok : Bool) : AllocResult :=
  klp_shadow_get_or_alloc_impl s obj shadow_type size ctor_data alloc_ok false

/-- One `klp_shadow_free_struct` call: the destructor (if the type has one)
is invoked on the entry's `obj` and data; removal from the table and the
deferred `kfree_rcu` are handled by the caller's loop.  This returns the
destructor events. -/
def klp_shadow_free_struct_runs (shadow : Shadow) (shadow_type : ShadowType) :
    List (Nat × Nat) :=
  if shadow_type.hasDtor then [(shadow.obj, shadow.ref)] else []

/-- The `hash_for_each_possible` loop of `klp_shadow_free`: scan the bucket
front to back, free the first entry matching `<obj, id>` and `break`.
Returns the remaining bucket contents and the destructor events. -/
def klp_shadow_free_loop (hash : List Shadow) (obj : Nat) (shadow_type : ShadowType) :
    List Shadow × List (Nat × Nat) :=
  match hash with
  | [] => ([], [])
  | shadow :: rest =>
      if klp_shadow_match shadow obj shadow_type then
        (rest, klp_shadow_free_struct_runs shadow shadow_type)
      else
        let r := klp_shadow_free_loop rest obj shadow_type
        (shadow :: r.1, r.2)

/-- Result of the freeing operations: state after the call and the
`(obj, data)` of each destructor invocation. -/
structure FreeResult where
  state : KlpState
  dtorRuns : List (Nat × Nat)
deriving Repr

/-- `klp_shadow_free`: under the lock, delete the first `<obj, id>` match
from the hash (running its destructor); nothing happens when no entry
matches. -/
def klp_shadow_free (s : KlpState) (obj : Nat) (shadow_type : ShadowType) : FreeResult :=
  let r := klp_shadow_free_loop s.hash obj shadow_type
  { state := { s with hash := r.1 }, dtorRuns := r.2 }

/-- The `hash_for_each` loop of `__klp_shadow_free_all`: every entry
matching `<shadow->obj, id>` (i.e. every entry whose id matches) is freed,
front to back. -/
def klp_shadow_free_all_loop (hash : List Shadow) (shadow_type : ShadowType) :
    List Shadow × List (Nat × Nat) :=
  match hash with
  | [] => ([], [])
  | shadow :: rest =>
      let r := klp_shadow_free_all_loop rest shadow_type
      if klp_shadow_match shadow shadow.obj shadow_type then
        (r.1, klp_shadow_free_struct_runs shadow shadow_type ++ r.2)
      else
        (shadow :: r.1, r.2)

/-- `__klp_shadow_free_all`: delete all `<*, id>` entries from the hash,
running each destructor (lock held by the caller). -/
def klp_shadow_free_all_impl (s : KlpState) (shadow_type : ShadowType) : FreeResult :=
  let r := klp_shadow_free_all_loop s.hash shadow_type
  { state := { s with hash := r.1 }, dtorRuns := r.2 }

/-- `klp_shadow_free_all`: take the lock and call `__klp_shadow_free_all`. -/
def klp_shadow_free_all (s : KlpState) (shadow_type : ShadowType) : FreeResult :=
  klp_shadow_free_all_impl s shadow_type

/-- `klp_shadow_type_get_reg`: find the registration record for the type's
id on the `klp_shadow_types` list. -/
def klp_shadow_type_get_reg (types : List TypeReg) (shadow_type : ShadowType) :
    Option TypeReg :=
  types.find? (fun reg => reg.id == shadow_type.id)

/-- `shadow_type_reg->ref_cnt++` on the first record with the given id. -/
def incFirstReg (types : List TypeReg) (i : Nat) : List TypeReg :=
  match types with
  | [] => []
  | reg :: rest =>
      if reg.id == i then { reg with ref_cnt := reg.ref_cnt + 1 } :: rest
      else reg :: incFirstReg rest i

/-- `shadow_type_reg->ref_cnt--` on the first record with the given id. -/
def decFirstReg (types : List TypeReg) (i : Nat) : List TypeReg :=
  match types with
  | [] => []
  | reg :: rest =>
      if reg.id == i then { reg with ref_cnt := reg.ref_cnt - 1 } :: rest
      else reg :: decFirstReg rest i

/-- `list_del` of the first registration record with the given id. -/
def removeFirstReg (types : List TypeReg) (i : Nat) : List TypeReg :=
  match types with
  | [] => []
  | reg :: rest =>
      if reg.id == i then rest
      else reg :: removeFirstReg rest i

/-- Result of `klp_shadow_register`: the C return value, the state after
the call, and the (possibly updated) caller-owned type descriptor. -/
structure RegisterResult where
  ret : Int
  state : KlpState
  shadow_type : ShadowType

/-- `klp_shadow_register`: `kzalloc` a fresh record first (`-ENOMEM` on
failure).  Under the lock: if the type is already registered, log and leave
everything unchanged (returning 0); otherwise reuse the existing record for
this id or add the fresh one (zero-initialised, `list_add` prepends), then
increment its reference count and set `registered`. -/
def klp_shadow_register (s : KlpState) (shadow_type : ShadowType) (alloc_ok : Bool) :
    RegisterResult :=
  if !alloc_ok then
    { ret := -12, state := s, shadow_type := shadow_type }
  else if shadow_type.registered then
    { ret := 0, state := s, shadow_type := shadow_type }
  else
    match klp_shadow_type_get_reg s.types shadow_type with
    | none =>
        let newReg : TypeReg := { id := shadow_type.id, ref_cnt := 0 }
        { ret := 0,
          state := { s with types := incFirstReg (newReg :: s.types) shadow_type.id },
          shadow_type := { shadow_type with registered := true } }
    | some _ =>
        { ret := 0,
          state := { s with types := incFirstReg s.types shadow_type.id },
          shadow_type := { shadow_type with registered := true } }

/-- Result of `klp_shadow_unregister`: state after the call, the updated
descriptor, and destructor events from the implicit purge. -/
structure UnregisterResult where
  state : KlpState
  shadow_type : ShadowType
  dtorRuns : List (Nat × Nat)

/-- `klp_shadow_unregister`: if the type is not registered, or no
registration record exists, log and leave everything unchanged.  Otherwise
clear `registered` and decrement the record's reference count; when it
reaches zero, purge all entries of the id via `__klp_shadow_free_all`,
unlink and free the record. -/
def klp_shadow_unregister (s : KlpState) (shadow_type : ShadowType) : UnregisterResult :=
  if !shadow_type.registered then
    { state := s, shadow_type := shadow_type, dtorRuns := [] }
  else
    match klp_shadow_type_get_reg s.types shadow_type with
    | none => { state := s, shadow_type := shadow_type, dtorRuns := [] }
    | some reg =>
        let t1 : ShadowType := { shadow_type with registered := false }
        let types1 := decFirstReg s.types shadow_type.id
        if reg.ref_cnt - 1 == 0 then
          let fr := klp_shadow_free_all_impl { s with types := types1 } shadow_type
          { state := { fr.state with
              types := removeFirstReg fr.state.types shadow_type.id },
            shadow_type := t1, dtorRuns := fr.dtorRuns }
        else
          { state := { s with types := types1 }, shadow_type := t1, dtorRuns := [] }

/-- The live entries keyed `(obj, i)` in a hashtable. -/
def entriesFor (hash : List Shadow) (obj i : Nat) : List Shadow :=
  hash.filter (fun shadow => shadow.obj == obj && shadow.id == i)

/-- At most one entry of the table is keyed `(obj, i)`, for every key. -/
def hashUniq (hash : List Shadow) : Prop :=
  ∀ obj i, (entriesFor hash obj i).length ≤ 1

/-- The uniqueness invariant of the spec: at most one live entry exists for
any `(owner, type_id)` pair. -/
def UniqueInv (s : KlpState) : Prop :=
  hashUniq s.hash

/-- One API operation, with all inputs (descriptor contents included)
chosen arbitrarily by the environment. -/
inductive Step : KlpState → KlpState → Prop where
  | get (obj : Nat) (t : ShadowType) (s : KlpState) : Step s s
  | alloc (obj : Nat) (t : ShadowType) (size ctor_data : Nat) (ok : Bool) (s : KlpState) :
      Step s (klp_shadow_alloc s obj t size ctor_data ok).state
  | get_or_alloc (obj : Nat) (t : ShadowType) (size ctor_data : Nat) (ok : Bool)
      (s : KlpState) :
      Step s (klp_shadow_get_or_alloc s obj t size ctor_data ok).state
  | free (obj : Nat) (t : ShadowType) (s : KlpState) :
      Step s (klp_shadow_free s obj t).state
  | free_all (t : ShadowType) (s : KlpState) :
      Step s (klp_shadow_free_all s t).state
  | register (t : ShadowType) (ok : Bool) (s : KlpState) :
      Step s (klp_shadow_register s t ok).state
  | unregister (t : ShadowType) (s : KlpState) :
      Step s (klp_shadow_unregister s t).state

/-- States reachable from the initial state by any sequence of API
operations. -/
inductive Reachable : KlpState → Prop where
  | init : Reachable initState
  | step {s s2 : KlpState} : Reachable s → Step s s2 → Reachable s2

/-- One API operation, where the allocation entry points are only invoked
with a currently-registered type descriptor. -/
inductive StepR : KlpState → KlpState → Prop where
  | get (obj : Nat) (t : ShadowType) (s : KlpState) : StepR s s
  | alloc (obj : Nat) (t : ShadowType) (size ctor_data : Nat) (ok : Bool) (s : KlpState)
      (hreg : t.registered = true) :
      StepR s (klp_shadow_alloc s obj t size ctor_data ok).state
  | get_or_alloc (obj : Nat) (t : ShadowType) (size ctor_data : Nat) (ok : Bool)
      (s : KlpState) (hreg : t.registered = true) :
      StepR s (klp_shadow_get_or_alloc s obj t size ctor_data ok).state
  | free (obj : Nat) (t : ShadowType) (s : KlpState) :
      StepR s (klp_shadow_free s obj t).state
  | free_all (t : ShadowType) (s : KlpState) :
      StepR s (klp_shadow_free_all s t).state
  | register (t : ShadowType) (ok : Bool) (s : KlpState) :
      StepR s (klp_shadow_register s t ok).state
  | unregister (t : ShadowType) (s : KlpState) :
      StepR s (klp_shadow_unregister s t).state

/-- States reachable from the initial state when allocation is only ever
performed with registered type descriptors. -/
inductive ReachableR : KlpState → Prop where
  | init : ReachableR initState
  | step {s s2 : KlpState} : ReachableR s → StepR s s2 → ReachableR s2

/-- A registered descriptor for id 5 with no constructor or destructor. -/
def tReg5 : ShadowType := { id := 5, registered := true, ctor := none, hasDtor := false }

/-- An unregistered descriptor for id 5 with no constructor or destructor. -/
def tUnreg5 : ShadowType := { id := 5, registered := false, ctor := none, hasDtor := false }

/-- An unregistered descriptor for id 5 with an always-succeeding constructor. -/
def tUnregCtor5 : ShadowType :=
  { id := 5, registered := false, ctor := some (fun _ _ => 0), hasDtor := false }

/-- A registered descriptor for id 5 with an always-succeeding constructor. -/
def tRegCtor5 : ShadowType :=
  { id := 5, registered := true, ctor := some (fun _ _ => 0), hasDtor := false }

/-- A registered descriptor for id 5 whose constructor always fails with `-22`. -/
def tRegCtorFail5 : ShadowType :=
  { id := 5, registered := true, ctor := some (fun _ _ => -22), hasDtor := false }

/-- A registered descriptor for id 5 with a destructor. -/
def tRegDtor5 : ShadowType := { id := 5, registered := true, ctor := none, hasDtor := true }

/-- State after one `klp_shadow_alloc` of `<4096, 5>` on an unregistered
descriptor. -/
def cexS1 : KlpState := (klp_shadow_alloc initState 4096 tUnreg5 8 0 true).state

/-- State after a second such `klp_shadow_alloc`: two live `<4096, 5>`
entries. -/
def cexS2 : KlpState := (klp_shadow_alloc cexS1 4096 tUnreg5 8 0 true).state

/-- A store holding one live `<4096, 5>` entry, with id 5 registered once. -/
def dupState : KlpState :=
  { hash := [{ obj := 4096, id := 5, ref := 0 }],
    types := [{ id := 5, ref_cnt := 1 }], nextRef := 1 }

/-- A store holding two live `<4096, 5>` entries (reachable by allocating
twice through an unregistered descriptor). -/
def twoDupState : KlpState :=
  { hash := [{ obj := 4096, id := 5, ref := 0 }, { obj := 4096, id := 5, ref := 1 }],
    types := [{ id := 5, ref_cnt := 1 }], nextRef := 2 }

/-- A store with entries of ids 5 and 7 and one registration of id 5. -/
def regState5 : KlpState :=
  { hash := [{ obj := 1, id := 5, ref := 0 }, { obj := 2, id := 7, ref := 1 }],
    types := [{ id := 5, ref_cnt := 1 }], nextRef := 2 }

/-- State after one registered `klp_shadow_alloc` of `<4096, 5>`. -/
def regAllocState : KlpState := (klp_shadow_alloc initState 4096 tReg5 8 0 true).state

/-! Basic lemmas about the embedded operations. -/

theorem get_nextRef (s : KlpState) (n obj : Nat) (t : ShadowType) :
    klp_shadow_get { s with nextRef := n } obj t = klp_shadow_get s obj t := rfl

theorem get_none_iff_entriesFor_nil {s : KlpState} {obj : Nat} {t : ShadowType}
    (hreg : t.registered = true) :
    klp_shadow_get s obj t = none ↔ entriesFor s.hash obj t.id = [] := by
  simp only [klp_shadow_get, hreg, Bool.not_true, Bool.false_eq_true, if_false,
    Option.map_eq_none', List.find?_eq_none, entriesFor, List.filter_eq_nil_iff,
    klp_shadow_match]

theorem hashUniq_of_sublist {h1 h2 : List Shadow} (hs : h1.Sublist h2)
    (h : hashUniq h2) : hashUniq h1 := by
  intro obj i
  exact le_trans ((hs.filter _).length_le) (h obj i)

theorem hashUniq_insert {h : List Shadow} {obj i r : Nat} (hu : hashUniq h)
    (hnil : entriesFor h obj i = []) :
    hashUniq ({ obj := obj, id := i, ref := r } :: h) := by
  intro o j
  by_cases hc : ((obj == o) && (i == j)) = true
  · have hob : obj = o := by
      have h2 := (Bool.and_eq_true _ _).mp hc
      exact beq_iff_eq.mp h2.1
    have hij : i = j := by
      have h2 := (Bool.and_eq_true _ _).mp hc
      exact beq_iff_eq.mp h2.2
    subst hob; subst hij
    simp only [entriesFor, List.filter_cons] at *
    simp only [hc, if_true]
    rw [hnil]
    simp
  · simp only [entriesFor, List.filter_cons]
    simp only [hc]
    exact hu o j

theorem free_loop_fst_sublist (h : List Shadow) (obj : Nat) (t : ShadowType) :
    (klp_shadow_free_loop h obj t).1.Sublist h := by
  induction h with
  | nil => simp [klp_shadow_free_loop]
  | cons a l ih =>
    unfold klp_shadow_free_loop
    by_cases hm : klp_shadow_match a obj t = true
    · simp only [hm, if_true]
      exact List.sublist_cons_self a l
    · simp only [hm, if_false, Bool.false_eq_true]
      exact ih.cons₂ a

theorem free_loop_of_absent {h : List Shadow} {obj : Nat} {t : ShadowType}
    (habs : entriesFor h obj t.id = []) :
    klp_shadow_free_loop h obj t = (h, []) := by
  induction h with
  | nil => rfl
  | cons a l ih =>
    have hm : klp_shadow_match a obj t = false := by
      have h1 := List.filter_eq_nil_iff.mp habs a (List.mem_cons_self a l)
      simpa [klp_shadow_match] using h1
    have hl : entriesFor l obj t.id = [] := by
      have : entriesFor (a :: l) obj t.id = entriesFor l obj t.id := by
        simp only [entriesFor, List.filter_cons]
        simpa [klp_shadow_match] using hm
      rw [← this]; exact habs
    unfold klp_shadow_free_loop
    rw [hm]
    simp only [Bool.false_eq_true, if_false, ih hl]

theorem free_loop_removes {h : List Shadow} {obj : Nat} {t : ShadowType}
    (huniq : (entriesFor h obj t.id).length ≤ 1) :
    entriesFor (klp_shadow_free_loop h obj t).1 obj t.id = [] := by
  induction h with
  | nil => rfl
  | cons a l ih =>
    unfold klp_shadow_free_loop
    by_cases hm : klp_shadow_match a obj t = true
    · simp only [hm, if_true]
      have hcons : entriesFor (a :: l) obj t.id = a :: entriesFor l obj t.id := by
        simp only [entriesFor, List.filter_cons]
        simpa [klp_shadow_match] using hm
      rw [hcons] at huniq
      simp only [List.length_cons] at huniq
      have : (entriesFor l obj t.id).length = 0 := by omega
      exact List.length_eq_zero.mp this
    · have hcons : entriesFor (a :: l) obj t.id = entriesFor l obj t.id := by
        simp only [entriesFor, List.filter_cons]
        have : (fun shadow => shadow.obj == obj && shadow.id == t.id) a = false := by
          simpa [klp_shadow_match] using hm
        simp [this]
      simp only [hm, Bool.false_eq_true, if_false]
      have hl := ih (by rw [hcons] at huniq; exact huniq)
      simp only [entriesFor, List.filter_cons] at *
      have : (fun shadow => shadow.obj == obj && shadow.id == t.id) a = false := by
        simpa [klp_shadow_match] using hm
      simp [this, hl]

theorem free_all_loop_fst (h : List Shadow) (t : ShadowType) :
    (klp_shadow_free_all_loop h t).1 = h.filter (fun sh => !(sh.id == t.id)) := by
  induction h with
  | nil => rfl
  | cons a l ih =>
    unfold klp_shadow_free_all_loop
    by_cases hm : (a.id == t.id) = true
    · have : klp_shadow_match a a.obj t = true := by simp [klp_shadow_match, hm]
      simp [this, ih, List.filter_cons, hm]
    · have : klp_shadow_match a a.obj t = false := by simp [klp_shadow_match, hm]
      simp [this, ih, List.filter_cons, hm]

theorem free_all_loop_snd (h : List Shadow) (t : ShadowType) :
    (klp_shadow_free_all_loop h t).2 =
      (if t.hasDtor then
        (h.filter (fun sh => sh.id == t.id)).map (fun sh => (sh.obj, sh.ref))
      else []) := by
  induction h with
  | nil => cases hd : t.hasDtor <;> simp [klp_shadow_free_all_loop, hd]
  | cons a l ih =>
    unfold klp_shadow_free_all_loop
    by_cases hm : (a.id == t.id) = true
    · have hmm : klp_shadow_match a a.obj t = true := by simp [klp_shadow_match, hm]
      cases hd : t.hasDtor with
      | true =>
        simp [hmm, klp_shadow_free_struct_runs, hd, ih, List.filter_cons, hm]
      | false =>
        simp [hmm, klp_shadow_free_struct_runs, hd, ih, List.filter_cons, hm]
    · have hmm : klp_shadow_match a a.obj t = false := by simp [klp_shadow_match, hm]
      simp [hmm, ih, List.filter_cons, hm]

theorem filter_of_antifilter (l : List Shadow) (p : Shadow → Bool) :
    (l.filter (fun a => !p a)).filter p = [] := by
  induction l with
  | nil => rfl
  | cons a l ih =>
    by_cases hp : p a = true <;> simp [List.filter_cons, hp, ih]

theorem impl_of_found {s : KlpState} {obj : Nat} {t : ShadowType} {d : Nat}
    (size cd : Nat) (ok w : Bool) (hget : klp_shadow_get s obj t = some d) :
    klp_shadow_get_or_alloc_impl s obj t size cd ok w =
      { data := some d, state := s, ctorRuns := [], diags := [] } := by
  unfold klp_shadow_get_or_alloc_impl
  rw [hget]

theorem impl_of_alloc_failed {s : KlpState} {obj : Nat} {t : ShadowType}
    (size cd : Nat) (w : Bool) (hget : klp_shadow_get s obj t = none) :
    klp_shadow_get_or_alloc_impl s obj t size cd false w =
      { data := none, state := s, ctorRuns := [], diags := [] } := by
  unfold klp_shadow_get_or_alloc_impl
  rw [hget]
  rfl

theorem impl_of_absent {s : KlpState} {obj : Nat} {t : ShadowType} {size cd : Nat}
    {w : Bool} (hget : klp_shadow_get s obj t = none)
    (hctor : ∀ c, t.ctor = some c → c obj cd = 0) :
    klp_shadow_get_or_alloc_impl s obj t size cd true w =
      { data := some s.nextRef,
        state := { hash := { obj := obj, id := t.id, ref := s.nextRef } :: s.hash,
                   types := s.types, nextRef := s.nextRef + 1 },
        ctorRuns := (match t.ctor with | some _ => [(obj, t.id)] | none => []),
        diags := [] } := by
  have hgn : klp_shadow_get (KlpState.mk s.hash s.types (s.nextRef + 1)) obj t = none :=
    hget
  unfold klp_shadow_get_or_alloc_impl klp_shadow_get_or_use
  cases hc2 : t.ctor with
  | none => simp [hget, hgn, hc2]
  | some c =>
    have h0 := hctor c hc2
    simp [hget, hgn, hc2, h0]

theorem impl_of_ctor_failed {s : KlpState} {obj : Nat} {t : ShadowType} {size cd : Nat}
    {w : Bool} {c : Nat → Nat → Int} (hget : klp_shadow_get s obj t = none)
    (hc : t.ctor = some c) (hfail : c obj cd ≠ 0) :
    klp_shadow_get_or_alloc_impl s obj t size cd true w =
      { data := none,
        state := { hash := s.hash, types := s.types, nextRef := s.nextRef + 1 },
        ctorRuns := [(obj, t.id)],
        diags := [Diag.ctorFailedDiag obj t.id] } := by
  have hgn : klp_shadow_get (KlpState.mk s.hash s.types (s.nextRef + 1)) obj t = none :=
    hget
  have hb : (c obj cd != 0) = true := by simpa using hfail
  unfold klp_shadow_get_or_alloc_impl klp_shadow_get_or_use
  simp [hget, hgn, hc, hb]

theorem impl_ctorRuns_cases (s : KlpState) (obj : Nat) (t : ShadowType)
    (size cd : Nat) (ok w : Bool) :
    (klp_shadow_get_or_alloc_impl s obj t size cd ok w).ctorRuns = [] ∨
    (klp_shadow_get_or_alloc_impl s obj t size cd ok w).ctorRuns = [(obj, t.id)] := by
  cases hget : klp_shadow_get s obj t with
  | some d => rw [impl_of_found size cd ok w hget]; left; rfl
  | none =>
    cases ok with
    | false => rw [impl_of_alloc_failed size cd w hget]; left; rfl
    | true =>
      cases hc : t.ctor with
      | none =>
        rw [impl_of_absent hget (fun c hcc => by rw [hc] at hcc; cases hcc)]
        left; rw [hc]
      | some c =>
        by_cases hz : c obj cd = 0
        · rw [impl_of_absent hget (fun c2 hcc => by
            rw [hc] at hcc; cases hcc; exact hz)]
          right; rw [hc]
        · rw [impl_of_ctor_failed hget hc hz]; right; rfl

theorem impl_hash_cases (s : KlpState) (obj : Nat) (t : ShadowType)
    (size cd : Nat) (ok w : Bool) :
    (klp_shadow_get_or_alloc_impl s obj t size cd ok w).state.hash = s.hash ∨
    (klp_shadow_get s obj t = none ∧
      (klp_shadow_get_or_alloc_impl s obj t size cd ok w).state.hash =
        { obj := obj, id := t.id, ref := s.nextRef } :: s.hash) := by
  cases hget : klp_shadow_get s obj t with
  | some d => rw [impl_of_found size cd ok w hget]; left; rfl
  | none =>
    cases ok with
    | false => rw [impl_of_alloc_failed size cd w hget]; left; rfl
    | true =>
      cases hc : t.ctor with
      | none =>
        rw [impl_of_absent hget (fun c hcc => by rw [hc] at hcc; cases hcc)]
        right; exact ⟨rfl, rfl⟩
      | some c =>
        by_cases hz : c obj cd = 0
        · rw [impl_of_absent hget (fun c2 hcc => by
            rw [hc] at hcc; cases hcc; exact hz)]
          right; exact ⟨rfl, rfl⟩
        · rw [impl_of_ctor_failed hget hc hz]; left; rfl

theorem register_hash (s : KlpState) (t : ShadowType) (ok : Bool) :
    (klp_shadow_register s t ok).state.hash = s.hash := by
  unfold klp_shadow_register
  cases ok with
  | false => rfl
  | true =>
    cases hr : t.registered with
    | true => simp [hr]
    | false =>
      cases hfind : klp_shadow_type_get_reg s.types t with
      | none => simp [hr, hfind]
      | some r0 => simp [hr, hfind]

theorem free_all_impl_hash (s : KlpState) (t : ShadowType) :
    (klp_shadow_free_all_impl s t).state.hash = (klp_shadow_free_all_loop s.hash t).1 := rfl

theorem unregister_hash_cases (s : KlpState) (t : ShadowType) :
    (klp_shadow_unregister s t).state.hash = s.hash ∨
    (klp_shadow_unregister s t).state.hash = (klp_shadow_free_all_loop s.hash t).1 := by
  unfold klp_shadow_unregister
  cases hr : t.registered with
  | false => left; rfl
  | true =>
    cases hfind : klp_shadow_type_get_reg s.types t with
    | none => simp [hr, hfind]
    | some r0 =>
      by_cases hz : (r0.ref_cnt - 1 == 0) = true
      · right; simp [hr, hfind, hz]; rfl
      · left; simp [hr, hfind, hz]

theorem alloc_preserves_hashUniq {s : KlpState} {obj : Nat} {t : ShadowType}
    {size cd : Nat} {ok w : Bool} (hreg : t.registered = true)
    (hinv : hashUniq s.hash) :
    hashUniq (klp_shadow_get_or_alloc_impl s obj t size cd ok w).state.hash := by
  rcases impl_hash_cases s obj t size cd ok w with h1 | ⟨hget, h1⟩
  · rw [h1]; exact hinv
  · rw [h1]
    exact hashUniq_insert hinv ((get_none_iff_entriesFor_nil hreg).mp hget)

theorem stepR_preserves {s s2 : KlpState} (hstep : StepR s s2)
    (hinv : UniqueInv s) : UniqueInv s2 := by
  cases hstep with
  | get obj t s => exact hinv
  | alloc obj t size cd ok s hreg => exact alloc_preserves_hashUniq hreg hinv
  | get_or_alloc obj t size cd ok s hreg => exact alloc_preserves_hashUniq hreg hinv
  | free obj t s =>
    exact hashUniq_of_sublist (free_loop_fst_sublist s.hash obj t) hinv
  | free_all t s =>
    have : (klp_shadow_free_all s t).state.hash = (klp_shadow_free_all_loop s.hash t).1 :=
      rfl
    rw [UniqueInv, this, free_all_loop_fst]
    exact hashUniq_of_sublist (List.filter_sublist s.hash) hinv
  | register t ok s =>
    rw [UniqueInv, register_hash]
    exact hinv
  | unregister t s =>
    rcases unregister_hash_cases s t with h1 | h1
    · rw [UniqueInv, h1]; exact hinv
    · rw [UniqueInv, h1, free_all_loop_fst]
      exact hashUniq_of_sublist (List.filter_sublist s.hash) hinv

/-- C1 (counterexample): the invariant does not hold over all states
reachable by arbitrary API calls.  Calling `klp_shadow_alloc` twice for
owner 4096 through an unregistered descriptor of id 5 yields a reachable
state holding two live entries keyed `(4096, 5)`: `klp_shadow_get` checks
`registered` before scanning, so the under-lock duplicate re-check is
disabled and the second allocation is inserted next to the first. -/
theorem C1_counterexample : ¬ (∀ s : KlpState, Reachable s → UniqueInv s) := by
  intro hall
  have h2 : Reachable cexS2 :=
    Reachable.step
      (Reachable.step Reachable.init (Step.alloc 4096 tUnreg5 8 0 true initState))
      (Step.alloc 4096 tUnreg5 8 0 true cexS1)
  have hlen : (entriesFor cexS2.hash 4096 5).length = 2 := by decide
  have := hall cexS2 h2 4096 5
  omega

/-- C1 (amended): in every store state reachable by register, unregister,
get, alloc, get_or_alloc, free, and free_all operations in which the
allocation entry points are only invoked with registered type descriptors,
at most one live entry keyed `(owner, type_id)` exists in the hashtable. -/
theorem C1_unique_invariant (s : KlpState) (h : ReachableR s) : UniqueInv s := by
  induction h with
  | init => intro obj i; simp [initState, entriesFor]
  | step hr hstep ih => exact stepR_preserves hstep ih

/-- C1 witness: the amended invariant applied to the concrete reachable
state obtained by one registered allocation. -/
theorem C1_witness : (entriesFor regAllocState.hash 4096 5).length ≤ 1 :=
  C1_unique_invariant regAllocState
    (ReachableR.step ReachableR.init (StepR.alloc 4096 tReg5 8 0 true initState rfl))
    4096 5

/-- C2 (code bug): with a registered descriptor and a live `(4096, 5)`
entry, strict `klp_shadow_alloc` returns the existing data reference with
no duplicate diagnostic and leaves the state unchanged: the early return in
`__klp_shadow_get_or_alloc` (shadow.c:172-174) exits before the
`warn_on_exist` check, so sequentially the `WARN`-and-NULL path the claim
(and the function's own documentation, shadow.c:219-227) describes is
unreachable. -/
theorem C2_duplicate_alloc_returns_existing :
    (klp_shadow_alloc dupState 4096 tReg5 8 0 true).data = some 0 ∧
    (klp_shadow_alloc dupState 4096 tReg5 8 0 true).diags = [] ∧
    (klp_shadow_alloc dupState 4096 tReg5 8 0 true).state = dupState := by
  refine ⟨?_, ?_, ?_⟩ <;> decide

/-- C3 (counterexample): through an unregistered descriptor with a
constructor, `klp_shadow_alloc` invokes the constructor even though a live
entry for `(4096, 5)` already exists in the store. -/
theorem C3_counterexample :
    entriesFor dupState.hash 4096 tUnregCtor5.id ≠ [] ∧
    (klp_shadow_alloc dupState 4096 tUnregCtor5 8 0 true).ctorRuns = [(4096, 5)] := by
  refine ⟨?_, ?_⟩ <;> decide

/-- C3 (amended): for every owner and registered type descriptor, a single
`klp_shadow_alloc` or `klp_shadow_get_or_alloc` call invokes the
constructor at most once, and never when an entry for `(obj, t.id)` is
already live in the store. -/
theorem C3_ctor_at_most_once (s : KlpState) (obj : Nat) (t : ShadowType)
    (size cd : Nat) (ok : Bool) (hreg : t.registered = true) :
    (entriesFor s.hash obj t.id ≠ [] →
      (klp_shadow_alloc s obj t size cd ok).ctorRuns = [] ∧
      (klp_shadow_get_or_alloc s obj t size cd ok).ctorRuns = []) ∧
    (klp_shadow_alloc s obj t size cd ok).ctorRuns.length ≤ 1 ∧
    (klp_shadow_get_or_alloc s obj t size cd ok).ctorRuns.length ≤ 1 := by
  refine ⟨?_, ?_, ?_⟩
  · intro hne
    have hget : klp_shadow_get s obj t ≠ none := by
      intro hn
      exact hne ((get_none_iff_entriesFor_nil hreg).mp hn)
    cases hg : klp_shadow_get s obj t with
    | none => exact absurd hg hget
    | some d =>
      constructor
      · rw [klp_shadow_alloc, impl_of_found size cd ok true hg]
      · rw [klp_shadow_get_or_alloc, impl_of_found size cd ok false hg]
  · rcases impl_ctorRuns_cases s obj t size cd ok true with h | h <;>
      rw [klp_shadow_alloc, h] <;> simp
  · rcases impl_ctorRuns_cases s obj t size cd ok false with h | h <;>
      rw [klp_shadow_get_or_alloc, h] <;> simp

/-- C3 witness: with a registered descriptor whose constructor always
succeeds and a live `(4096, 5)` entry, neither entry point runs the
constructor. -/
theorem C3_witness :
    (klp_shadow_alloc dupState 4096 tRegCtor5 8 0 true).ctorRuns = [] ∧
    (klp_shadow_get_or_alloc dupState 4096 tRegCtor5 8 0 true).ctorRuns = [] :=
  (C3_ctor_at_most_once dupState 4096 tRegCtor5 8 0 true rfl).1 (by decide)

theorem get_cons_head (h : List Shadow) (ty : List TypeReg) (n obj r : Nat)
    (t : ShadowType) (hreg : t.registered = true) :
    klp_shadow_get
      (KlpState.mk ({ obj := obj, id := t.id, ref := r } :: h) ty n) obj t = some r := by
  have hp : klp_shadow_match { obj := obj, id := t.id, ref := r } obj t = true := by
    simp [klp_shadow_match]
  simp only [klp_shadow_get, hreg, Bool.not_true, Bool.false_eq_true, if_false]
  rw [@List.find?_cons_of_pos Shadow (fun shadow => klp_shadow_match shadow obj t)
    { obj := obj, id := t.id, ref := r } h hp]
  rfl

/-- C4 (counterexample): two sequential `klp_shadow_get_or_alloc` calls for
the same owner through an unregistered descriptor return two different data
references (a second entry is allocated and inserted because
`klp_shadow_get` rejects the unregistered type). -/
theorem C4_counterexample :
    (klp_shadow_get_or_alloc initState 4096 tUnreg5 8 0 true).data ≠
      (klp_shadow_get_or_alloc
        (klp_shadow_get_or_alloc initState 4096 tUnreg5 8 0 true).state
        4096 tUnreg5 8 0 true).data := by
  decide

/-- C4 (amended): for a registered descriptor with no live `(obj, t.id)`
entry, if the first `klp_shadow_get_or_alloc` returns a data reference then
a second sequential call returns the identical reference, leaves the state
unchanged, and runs no constructor; the constructor ran during the first
call exactly when the descriptor has one. -/
theorem C4_get_or_alloc_idempotent (s : KlpState) (obj : Nat) (t : ShadowType)
    (size cd : Nat) (ok1 ok2 : Bool)
    (hreg : t.registered = true)
    (hfresh : entriesFor s.hash obj t.id = [])
    (hdata : (klp_shadow_get_or_alloc s obj t size cd ok1).data ≠ none) :
    (klp_shadow_get_or_alloc (klp_shadow_get_or_alloc s obj t size cd ok1).state
        obj t size cd ok2).data = (klp_shadow_get_or_alloc s obj t size cd ok1).data ∧
    (klp_shadow_get_or_alloc (klp_shadow_get_or_alloc s obj t size cd ok1).state
        obj t size cd ok2).state = (klp_shadow_get_or_alloc s obj t size cd ok1).state ∧
    (klp_shadow_get_or_alloc (klp_shadow_get_or_alloc s obj t size cd ok1).state
        obj t size cd ok2).ctorRuns = [] ∧
    (klp_shadow_get_or_alloc s obj t size cd ok1).ctorRuns =
      (match t.ctor with | some _ => [(obj, t.id)] | none => []) := by
  have hget : klp_shadow_get s obj t = none :=
    (get_none_iff_entriesFor_nil hreg).mpr hfresh
  cases ok1 with
  | false =>
    rw [klp_shadow_get_or_alloc, impl_of_alloc_failed size cd false hget] at hdata
    exact absurd rfl hdata
  | true =>
    have hinsert :
        klp_shadow_get_or_alloc s obj t size cd true =
          { data := some s.nextRef,
            state := { hash := { obj := obj, id := t.id, ref := s.nextRef } :: s.hash,
                       types := s.types, nextRef := s.nextRef + 1 },
            ctorRuns := (match t.ctor with | some _ => [(obj, t.id)] | none => []),
            diags := [] } := by
      cases hc : t.ctor with
      | none =>
        rw [klp_shadow_get_or_alloc,
          impl_of_absent hget (fun c hcc => by rw [hc] at hcc; cases hcc), hc]
      | some c =>
        by_cases hz : c obj cd = 0
        · rw [klp_shadow_get_or_alloc,
            impl_of_absent hget (fun c2 hcc => by rw [hc] at hcc; cases hcc; exact hz), hc]
        · rw [klp_shadow_get_or_alloc, impl_of_ctor_failed hget hc hz] at hdata
          exact absurd rfl hdata
    rw [hinsert]
    have hg2 : klp_shadow_get
        (KlpState.mk ({ obj := obj, id := t.id, ref := s.nextRef } :: s.hash)
          s.types (s.nextRef + 1)) obj t = some s.nextRef :=
      get_cons_head s.hash s.types (s.nextRef + 1) obj s.nextRef t hreg
    rw [klp_shadow_get_or_alloc, impl_of_found size cd ok2 false hg2]
    exact ⟨rfl, rfl, rfl, rfl⟩

/-- C4 witness: from the empty store through a registered descriptor with a
constructor, the second call returns the same reference `0` as the first,
and only the first call ran the constructor. -/
theorem C4_witness :
    (klp_shadow_get_or_alloc (klp_shadow_get_or_alloc initState 4096 tRegCtor5 8 0 true).state
        4096 tRegCtor5 8 0 true).data =
      (klp_shadow_get_or_alloc initState 4096 tRegCtor5 8 0 true).data ∧
    (klp_shadow_get_or_alloc (klp_shadow_get_or_alloc initState 4096 tRegCtor5 8 0 true).state
        4096 tRegCtor5 8 0 true).ctorRuns = [] ∧
    (klp_shadow_get_or_alloc initState 4096 tRegCtor5 8 0 true).ctorRuns = [(4096, 5)] := by
  have h := C4_get_or_alloc_idempotent initState 4096 tRegCtor5 8 0 true true rfl
    (by decide) (by decide)
  exact ⟨h.1, h.2.2.1, h.2.2.2⟩

/-- C5 (counterexample): in a store holding two live `(4096, 5)` entries
(reachable by allocating twice through an unregistered descriptor),
`klp_shadow_free` removes only the first match (`break` after
`klp_shadow_free_struct`), so `klp_shadow_get` right after the free still
returns a data reference. -/
theorem C5_counterexample :
    klp_shadow_get (klp_shadow_free twoDupState 4096 tReg5).state 4096 tReg5 ≠ none := by
  decide

/-- C5 (amended): when at most one live entry is keyed `(obj, t.id)`,
`klp_shadow_get` returns empty immediately after `klp_shadow_free`; and
when no such entry exists, `klp_shadow_free` is a no-op that leaves the
store state unchanged and runs no destructor. -/
theorem C5_free_then_get_empty (s : KlpState) (obj : Nat) (t : ShadowType) :
    ((entriesFor s.hash obj t.id).length ≤ 1 →
      klp_shadow_get (klp_shadow_free s obj t).state obj t = none) ∧
    (entriesFor s.hash obj t.id = [] →
      (klp_shadow_free s obj t).state = s ∧ (klp_shadow_free s obj t).dtorRuns = []) := by
  constructor
  · intro huniq
    cases hr : t.registered with
    | false => simp [klp_shadow_get, hr]
    | true =>
      have hnil : entriesFor (klp_shadow_free s obj t).state.hash obj t.id = [] :=
        free_loop_removes huniq
      exact (get_none_iff_entriesFor_nil hr).mpr hnil
  · intro habs
    have h1 := free_loop_of_absent (t := t) habs
    constructor
    · show { s with hash := (klp_shadow_free_loop s.hash obj t).1 } = s
      rw [h1]
    · show (klp_shadow_free_loop s.hash obj t).2 = []
      rw [h1]

/-- C5 witness: freeing the single `(4096, 5)` entry makes `get` empty, and
freeing on the empty store leaves it unchanged. -/
theorem C5_witness :
    klp_shadow_get (klp_shadow_free dupState 4096 tReg5).state 4096 tReg5 = none ∧
    (klp_shadow_free initState 4096 tReg5).state = initState :=
  ⟨(C5_free_then_get_empty dupState 4096 tReg5).1 (by decide),
   ((C5_free_then_get_empty initState 4096 tReg5).2 (by decide)).1⟩

/-- C6: `klp_shadow_free_all t1` removes exactly the entries whose id
equals `t1.id` (the remaining table is the in-order sublist of all other
entries, untouched), runs the destructor (when `t1` has one) once per
removed entry in table order, and touches nothing else in the state. -/
theorem C6_free_all_exact (s : KlpState) (t1 : ShadowType) :
    (klp_shadow_free_all s t1).state.hash = s.hash.filter (fun sh => !(sh.id == t1.id)) ∧
    (klp_shadow_free_all s t1).state.types = s.types ∧
    (klp_shadow_free_all s t1).state.nextRef = s.nextRef ∧
    (klp_shadow_free_all s t1).dtorRuns =
      (if t1.hasDtor then
        (s.hash.filter (fun sh => sh.id == t1.id)).map (fun sh => (sh.obj, sh.ref))
      else []) :=
  ⟨free_all_loop_fst s.hash t1, rfl, rfl, free_all_loop_snd s.hash t1⟩

/-- C7: when the constructor fails during `klp_shadow_alloc` or
`klp_shadow_get_or_alloc` (the entry was absent, the speculative buffer was
allocated, and the constructor returned a nonzero error), the buffer is
discarded without inserting anything — hashtable and type registrations are
exactly as before — a constructor-failure diagnostic is emitted, and NULL
is returned. -/
theorem C7_ctor_failure (s : KlpState) (obj : Nat) (t : ShadowType) (size cd : Nat)
    (c : Nat → Nat → Int) (hc : t.ctor = some c) (hfail : c obj cd ≠ 0)
    (habsent : klp_shadow_get s obj t = none) :
    ((klp_shadow_alloc s obj t size cd true).data = none ∧
     (klp_shadow_alloc s obj t size cd true).state.hash = s.hash ∧
     (klp_shadow_alloc s obj t size cd true).state.types = s.types ∧
     (klp_shadow_alloc s obj t size cd true).diags = [Diag.ctorFailedDiag obj t.id]) ∧
    ((klp_shadow_get_or_alloc s obj t size cd true).data = none ∧
     (klp_shadow_get_or_alloc s obj t size cd true).state.hash = s.hash ∧
     (klp_shadow_get_or_alloc s obj t size cd true).state.types = s.types ∧
     (klp_shadow_get_or_alloc s obj t size cd true).diags =
       [Diag.ctorFailedDiag obj t.id]) := by
  rw [klp_shadow_alloc, klp_shadow_get_or_alloc,
    impl_of_ctor_failed habsent hc hfail, impl_of_ctor_failed habsent hc hfail]
  exact ⟨⟨rfl, rfl, rfl, rfl⟩, ⟨rfl, rfl, rfl, rfl⟩⟩

/-- C7 witness: a failing constructor on the empty store returns NULL,
emits the diagnostic, and leaves the hashtable empty. -/
theorem C7_witness :
    (klp_shadow_alloc initState 4096 tRegCtorFail5 8 0 true).data = none ∧
    (klp_shadow_alloc initState 4096 tRegCtorFail5 8 0 true).state.hash = initState.hash ∧
    (klp_shadow_alloc initState 4096 tRegCtorFail5 8 0 true).diags =
      [Diag.ctorFailedDiag 4096 5] := by
  have h := C7_ctor_failure initState 4096 tRegCtorFail5 8 0 (fun _ _ => -22) rfl
    (by decide) (by decide)
  exact ⟨h.1.1, h.1.2.1, h.1.2.2.2⟩

theorem unregister_zero {s : KlpState} {t : ShadowType} {r0 : TypeReg}
    (hreg : t.registered = true) (hfind : klp_shadow_type_get_reg s.types t = some r0)
    (hcnt : r0.ref_cnt = 1) :
    klp_shadow_unregister s t =
      { state := { hash := (klp_shadow_free_all_loop s.hash t).1,
                   types := removeFirstReg (decFirstReg s.types t.id) t.id,
                   nextRef := s.nextRef },
        shadow_type := { t with registered := false },
        dtorRuns := (klp_shadow_free_all_loop s.hash t).2 } := by
  unfold klp_shadow_unregister klp_shadow_free_all_impl
  simp only [hreg, Bool.not_true, Bool.false_eq_true, if_false, hfind, hcnt,
    show ((1 : Int) - 1 == 0) = true from by decide, if_true]

theorem removeFirst_dec_find_none {types : List TypeReg} {i : Nat}
    (huniq : (types.filter (fun reg => reg.id == i)).length ≤ 1) :
    (removeFirstReg (decFirstReg types i) i).find? (fun reg => reg.id == i) = none := by
  induction types with
  | nil => rfl
  | cons r rest ih =>
    by_cases hr : (r.id == i) = true
    · unfold decFirstReg removeFirstReg
      simp only [hr, if_true]
      rw [List.find?_eq_none]
      intro x hx
      have hlen : (rest.filter (fun reg => reg.id == i)).length = 0 := by
        simp only [List.filter_cons, hr, if_true, List.length_cons] at huniq
        omega
      have hnil := List.length_eq_zero.mp hlen
      have := List.filter_eq_nil_iff.mp hnil x hx
      simpa using this
    · unfold decFirstReg removeFirstReg
      simp only [hr, Bool.false_eq_true, if_false]
      rw [@List.find?_cons_of_neg TypeReg (fun reg => reg.id == i) r
        (removeFirstReg (decFirstReg rest i) i) hr]
      apply ih
      simpa [List.filter_cons, hr] using huniq

theorem get_none_of_no_id {s2 : KlpState} {t2 : ShadowType}
    (hids : s2.hash.filter (fun sh => sh.id == t2.id) = []) (obj : Nat) :
    klp_shadow_get s2 obj t2 = none := by
  unfold klp_shadow_get
  cases hr : t2.registered with
  | false => simp
  | true =>
    simp only [hr, Bool.not_true, Bool.false_eq_true, if_false, Option.map_eq_none',
      List.find?_eq_none]
    intro sh hsh
    have hid := List.filter_eq_nil_iff.mp hids sh hsh
    simp only [klp_shadow_match, Bool.and_eq_true, not_and]
    intro _
    simpa using hid

theorem register_of_unregistered {s : KlpState} {t : ShadowType}
    (hur : t.registered = false)
    (hfind : klp_shadow_type_get_reg s.types t = none) :
    klp_shadow_register s t true =
      { ret := 0,
        state := { hash := s.hash,
                   types := incFirstReg ({ id := t.id, ref_cnt := 0 } :: s.types) t.id,
                   nextRef := s.nextRef },
        shadow_type := { t with registered := true } } := by
  unfold klp_shadow_register
  simp [hur, hfind]

/-- C8: when `klp_shadow_unregister` drops the registration reference count
of `t.id` to zero (the type is registered, a unique registration record
exists, and its count is 1), every entry of that id is purged and the
registration record is removed; an immediately following
`klp_shadow_register` of the descriptor returns 0, marks it registered
again, and starts with zero entries of the id, so `klp_shadow_get` finds no
stale data for any owner. -/
theorem C8_unregister_purges (s : KlpState) (t : ShadowType) (r0 : TypeReg)
    (hreg : t.registered = true)
    (hfind : klp_shadow_type_get_reg s.types t = some r0)
    (hcnt : r0.ref_cnt = 1)
    (huniq : (s.types.filter (fun reg => reg.id == t.id)).length ≤ 1) :
    (klp_shadow_unregister s t).state.hash.filter (fun sh => sh.id == t.id) = [] ∧
    klp_shadow_type_get_reg (klp_shadow_unregister s t).state.types
      (klp_shadow_unregister s t).shadow_type = none ∧
    (klp_shadow_unregister s t).shadow_type.registered = false ∧
    (klp_shadow_register (klp_shadow_unregister s t).state
        (klp_shadow_unregister s t).shadow_type true).ret = 0 ∧
    (klp_shadow_register (klp_shadow_unregister s t).state
        (klp_shadow_unregister s t).shadow_type true).shadow_type.registered = true ∧
    (klp_shadow_register (klp_shadow_unregister s t).state
        (klp_shadow_unregister s t).shadow_type true).state.hash =
      (klp_shadow_unregister s t).state.hash ∧
    (∀ obj, klp_shadow_get
        (klp_shadow_register (klp_shadow_unregister s t).state
          (klp_shadow_unregister s t).shadow_type true).state obj
        (klp_shadow_register (klp_shadow_unregister s t).state
          (klp_shadow_unregister s t).shadow_type true).shadow_type = none) := by
  have hpurged : ((klp_shadow_free_all_loop s.hash t).1).filter
      (fun sh => sh.id == t.id) = [] := by
    rw [free_all_loop_fst]
    exact filter_of_antifilter s.hash (fun sh => sh.id == t.id)
  have hnone : (removeFirstReg (decFirstReg s.types t.id) t.id).find?
      (fun reg => reg.id == t.id) = none := removeFirst_dec_find_none huniq
  rw [unregister_zero hreg hfind hcnt]
  dsimp only
  have hfind2 : klp_shadow_type_get_reg
      (removeFirstReg (decFirstReg s.types t.id) t.id)
      { t with registered := false } = none := hnone
  rw [register_of_unregistered rfl hfind2]
  dsimp only
  refine ⟨hpurged, hnone, rfl, rfl, rfl, rfl, ?_⟩
  intro obj
  exact get_none_of_no_id hpurged obj

/-- C8 witness: unregistering the once-registered id 5 on a store holding
entries of ids 5 and 7 purges the id-5 entry; re-registering returns 0 and
`get` finds nothing for the old owner. -/
theorem C8_witness :
    (klp_shadow_unregister regState5 tRegDtor5).state.hash.filter
      (fun sh => sh.id == tRegDtor5.id) = [] ∧
    (klp_shadow_register (klp_shadow_unregister regState5 tRegDtor5).state
        (klp_shadow_unregister regState5 tRegDtor5).shadow_type true).ret = 0 ∧
    klp_shadow_get
      (klp_shadow_register (klp_shadow_unregister regState5 tRegDtor5).state
        (klp_shadow_unregister regState5 tRegDtor5).shadow_type true).state 1
      (klp_shadow_register (klp_shadow_unregister regState5 tRegDtor5).state
        (klp_shadow_unregister regState5 tRegDtor5).shadow_type true).shadow_type =
      none := by
  have h := C8_unregister_purges regState5 tRegDtor5 { id := 5, ref_cnt := 1 } rfl
    (by decide) rfl (by decide)
  exact ⟨h.1, h.2.2.2.1, h.2.2.2.2.2.2 1⟩

/-- C10: through a descriptor whose `registered` flag is false (and whose
constructor, if any, succeeds), `klp_shadow_alloc` and
`klp_shadow_get_or_alloc` still allocate, construct, and insert a new entry
and return a fresh non-NULL data reference — `registered` is checked only
inside `klp_shadow_get`, whose early return also disables the under-lock
duplicate re-check — while `klp_shadow_get` on the same descriptor returns
NULL even though the entry is live, and a repeated `klp_shadow_alloc`
inserts a second entry for the same `(obj, t.id)`. -/
theorem C10_unregistered_type_behavior (s : KlpState) (obj : Nat) (t : ShadowType)
    (size cd : Nat) (hunreg : t.registered = false)
    (hctor : ∀ c, t.ctor = some c → c obj cd = 0) :
    (klp_shadow_alloc s obj t size cd true).data = some s.nextRef ∧
    (klp_shadow_alloc s obj t size cd true).state.hash =
      { obj := obj, id := t.id, ref := s.nextRef } :: s.hash ∧
    (klp_shadow_get_or_alloc s obj t size cd true).data = some s.nextRef ∧
    klp_shadow_get (klp_shadow_alloc s obj t size cd true).state obj t = none ∧
    entriesFor (klp_shadow_alloc s obj t size cd true).state.hash obj t.id ≠ [] ∧
    2 ≤ (entriesFor (klp_shadow_alloc (klp_shadow_alloc s obj t size cd true).state
          obj t size cd true).state.hash obj t.id).length := by
  have hget : ∀ s2 : KlpState, klp_shadow_get s2 obj t = none := by
    intro s2
    simp [klp_shadow_get, hunreg]
  have h1 := @impl_of_absent s obj t size cd true (hget s) hctor
  have h1f := @impl_of_absent s obj t size cd false (hget s) hctor
  have h2 := @impl_of_absent
    (KlpState.mk ({ obj := obj, id := t.id, ref := s.nextRef } :: s.hash)
      s.types (s.nextRef + 1)) obj t size cd true
    (hget (KlpState.mk ({ obj := obj, id := t.id, ref := s.nextRef } :: s.hash)
      s.types (s.nextRef + 1))) hctor
  simp only [klp_shadow_alloc, klp_shadow_get_or_alloc, h1, h1f, h2]
  refine ⟨trivial, trivial, trivial, hget _, ?_, ?_⟩
  · have hcons : entriesFor ({ obj := obj, id := t.id, ref := s.nextRef } :: s.hash)
        obj t.id =
        { obj := obj, id := t.id, ref := s.nextRef } :: entriesFor s.hash obj t.id := by
      simp [entriesFor, List.filter_cons]
    rw [hcons]
    exact List.cons_ne_nil _ _
  · have hcons2 : entriesFor
        ({ obj := obj, id := t.id, ref := s.nextRef + 1 } ::
          { obj := obj, id := t.id, ref := s.nextRef } :: s.hash) obj t.id =
        { obj := obj, id := t.id, ref := s.nextRef + 1 } ::
          { obj := obj, id := t.id, ref := s.nextRef } :: entriesFor s.hash obj t.id := by
      simp [entriesFor, List.filter_cons]
    rw [hcons2]
    simp only [List.length_cons]
    omega

/-- C10 witness: from the empty store with an unregistered descriptor
carrying a succeeding constructor, the first alloc returns reference 0,
`get` still returns NULL, and a second alloc yields two live `(4096, 5)`
entries. -/
theorem C10_witness :
    (klp_shadow_alloc initState 4096 tUnregCtor5 8 0 true).data = some 0 ∧
    klp_shadow_get (klp_shadow_alloc initState 4096 tUnregCtor5 8 0 true).state
      4096 tUnregCtor5 = none ∧
    2 ≤ (entriesFor (klp_shadow_alloc
          (klp_shadow_alloc initState 4096 tUnregCtor5 8 0 true).state
          4096 tUnregCtor5 8 0 true).state.hash 4096 tUnregCtor5.id).length := by
  have h := C10_unregistered_type_behavior initState 4096 tUnregCtor5 8 0 rfl
    (by intro c hc; simp only [tUnregCtor5] at hc; cases hc; rfl)
  exact ⟨h.1, h.2.2.2.1, h.2.2.2.2.2⟩
